import Mathlib

/-
Verification development for the calhacks repository.

Two parts are modelled:

1. The evidence-weighted allergen probability engine and safety gate.
   The repository contains only design documents for this subsystem (the
   allergen-analyzer implementation guide and the safety/QA prompt); the
   implementation file `agents/allergen_analyzer_agent.py` it describes is
   absent from the source tree.  Those definitions are therefore modelled
   from the specification, with concrete table values taken from the
   design documents where they supply them.

2. The TypeScript API routes and UI helpers that are present in the
   source tree (`src/app/api/restaurants/route.ts`, the sample-restaurants
   route, and the `RestaurantPopup` component), translated directly.

Menu text is modelled as `List Char`; JavaScript / Python numbers are
modelled as exact rationals (`ℚ`); a JavaScript `NaN` produced by a failed
parse is modelled as `Option.none`.
-/

/-- Lowercase-normalization of a character list (the model of `str.lower()`
and `String.prototype.toLowerCase`). -/
def lowerAll (s : List Char) : List Char := s.map Char.toLower

/-- Does `s` start with the segment `pat`?  Executable model of a
prefix test on text. -/
def startsWithSeg : List Char → List Char → Bool
  | [], _ => true
  | _ :: _, [] => false
  | c :: cs, d :: ds => c = d && startsWithSeg cs ds

/-- Does `s` contain `pat` as a contiguous segment?  Executable model of
substring containment (`in` / `includes`). -/
def containsSeg (pat : List Char) : List Char → Bool
  | [] => pat.isEmpty
  | d :: ds => startsWithSeg pat (d :: ds) || containsSeg pat ds

/-- Clamp a rational into the interval `[lo, hi]`. -/
def clamp (x lo hi : ℚ) : ℚ := min (max x lo) hi

/-- Lookup in an association list by key, using decidable equality. -/
def assocFind {α β : Type} [DecidableEq α] (k : α) : List (α × β) → Option β
  | [] => none
  | p :: ps => if p.1 = k then some p.2 else assocFind k ps

/-- Modelled from the spec: the closed enumeration of the 11 tracked
allergens (§3 of the spec, §2.1 of the allergen-analyzer design document);
the enum of the absent `agents/allergen_analyzer_agent.py`. -/
inductive AllergenKind
  | GLUTEN | DAIRY | EGGS | SOY | PEANUTS | TREE_NUTS
  | SHELLFISH | FISH | SESAME | CORN | SULFITES
deriving DecidableEq

open AllergenKind

/-- Modelled from the spec: the list of all 11 allergen kinds, in the
order the spec enumerates them. -/
def allAllergens : List AllergenKind :=
  [GLUTEN, DAIRY, EGGS, SOY, PEANUTS, TREE_NUTS, SHELLFISH, FISH, SESAME, CORN, SULFITES]

/-- Modelled from the spec: the evidence kinds of §3 (the evidence-type
enum of the absent analyzer implementation). -/
inductive EvidenceKind
  | EXPLICIT_DECLARATION | EXPLICIT_INGREDIENT | DISH_ARCHETYPE
  | COOKING_METHOD | CUISINE_PRIOR | CROSS_CONTAMINATION
deriving DecidableEq

/-- Modelled from the spec: one justification unit (§3 `Evidence`). -/
structure Evidence where
  allergen : AllergenKind
  kind : EvidenceKind
  snippet : List Char
  reasoning : List Char
  weight : ℚ

/-- Modelled from the spec: one parsed dish (§3 `MenuItem`); `section` is
a Lean keyword, so that field is called `menuSection` here. -/
structure MenuItem where
  name : List Char
  description : List Char
  menuSection : List Char
  ingredientsMentioned : List (List Char)
  preparationMethods : List (List Char)
  sourceSnippet : List Char

/-- Modelled from the spec: the textual content of a menu item that the
declaration scan of §4.1(c) looks at (name, description and original
snippet, space-separated). -/
def menuItemText (i : MenuItem) : List Char :=
  i.name ++ [' '] ++ i.description ++ [' '] ++ i.sourceSnippet

/-- Modelled from the spec: the ingredient table of the Allergen Knowledge
Base (§2, §4.1(b)); entries and weights taken from the
`INGREDIENT_ALLERGEN_MAP` of the design document. -/
def ingredientTable : List (List Char × List (AllergenKind × ℚ)) :=
  [("wheat".data, [(GLUTEN, 1)]),
   ("flour".data, [(GLUTEN, 0.95)]),
   ("bread".data, [(GLUTEN, 0.98)]),
   ("pasta".data, [(GLUTEN, 0.95), (EGGS, 0.40)]),
   ("soy sauce".data, [(SOY, 0.98), (GLUTEN, 0.85)]),
   ("cheese".data, [(DAIRY, 0.98)]),
   ("milk".data, [(DAIRY, 1)]),
   ("butter".data, [(DAIRY, 0.98)]),
   ("cream".data, [(DAIRY, 0.98)]),
   ("eggs".data, [(EGGS, 1)]),
   ("mayo".data, [(EGGS, 0.95), (SOY, 0.30)]),
   ("peanut".data, [(PEANUTS, 1)]),
   ("almond".data, [(TREE_NUTS, 1)]),
   ("walnut".data, [(TREE_NUTS, 1)]),
   ("cashew".data, [(TREE_NUTS, 1)]),
   ("shrimp".data, [(SHELLFISH, 1)]),
   ("crab".data, [(SHELLFISH, 1)]),
   ("lobster".data, [(SHELLFISH, 1)]),
   ("fish".data, [(FISH, 1)]),
   ("salmon".data, [(FISH, 1)]),
   ("tuna".data, [(FISH, 1)]),
   ("tofu".data, [(SOY, 0.98)]),
   ("soybean oil".data, [(SOY, 0.90)]),
   ("vegetable oil".data, [(SOY, 0.70)]),
   ("sesame".data, [(SESAME, 1)]),
   ("tahini".data, [(SESAME, 0.98)])]

/-- Modelled from the spec: the fixed dish-archetype table of §4.1(d)
(weights within the specified 0.70 to 0.90 band). -/
def archetypeTable : List (List Char × List (AllergenKind × ℚ)) :=
  [("burger".data, [(GLUTEN, 0.90)]),
   ("pasta".data, [(GLUTEN, 0.85), (EGGS, 0.70)]),
   ("pizza".data, [(GLUTEN, 0.90), (DAIRY, 0.80)]),
   ("ice cream".data, [(DAIRY, 0.85)]),
   ("sushi".data, [(FISH, 0.80)])]

/-- Modelled from the spec: the cooking-method table of §4.1(e). -/
def cookingMethodTable : List (List Char × List (AllergenKind × ℚ)) :=
  [("fried".data, [(SOY, 0.60)]),
   ("breaded".data, [(GLUTEN, 0.85)]),
   ("battered".data, [(GLUTEN, 0.85), (EGGS, 0.45)])]

/-- Modelled from the spec: the fixed set of allergen-declaration markers
of §4.1(c). -/
def declarationMarkers : List (List Char) :=
  ["contains:".data, "allergens:".data]

/-- Modelled from the spec: the lowercase names under which each allergen
can be named inside a declaration clause. -/
def allergenTerms : AllergenKind → List (List Char)
  | GLUTEN => ["gluten".data, "wheat".data]
  | DAIRY => ["dairy".data, "milk".data]
  | EGGS => ["egg".data]
  | SOY => ["soy".data]
  | PEANUTS => ["peanut".data]
  | TREE_NUTS => ["tree nut".data, "almond".data, "walnut".data, "cashew".data]
  | SHELLFISH => ["shellfish".data, "shrimp".data, "crab".data, "lobster".data]
  | FISH => ["fish".data]
  | SESAME => ["sesame".data]
  | CORN => ["corn".data]
  | SULFITES => ["sulfite".data]

/-- Modelled from the spec: the generic default prior row of the
cuisine-prior table (values from the `default` row of `CUISINE_PRIORS` in
the design document). -/
def defaultPriors : AllergenKind → ℚ
  | GLUTEN => 0.50
  | DAIRY => 0.40
  | EGGS => 0.30
  | SOY => 0.35
  | PEANUTS => 0.15
  | TREE_NUTS => 0.15
  | SHELLFISH => 0.20
  | FISH => 0.20
  | SESAME => 0.15
  | CORN => 0.20
  | SULFITES => 0.10

/-- Modelled from the spec: the cuisine-level prior table (values from
`CUISINE_PRIORS` in the design document; rows are partial and fall back
to the default row per allergen). -/
def cuisinePriorTable : List (List Char × List (AllergenKind × ℚ)) :=
  [("italian".data,
     [(GLUTEN, 0.85), (DAIRY, 0.75), (EGGS, 0.40), (SOY, 0.15),
      (TREE_NUTS, 0.25), (SHELLFISH, 0.15), (FISH, 0.20)]),
   ("japanese".data,
     [(GLUTEN, 0.50), (SOY, 0.90), (FISH, 0.80), (SHELLFISH, 0.50),
      (SESAME, 0.40), (EGGS, 0.30)]),
   ("chinese".data,
     [(GLUTEN, 0.60), (SOY, 0.85), (PEANUTS, 0.45), (SHELLFISH, 0.50),
      (EGGS, 0.40), (SESAME, 0.35)]),
   ("mexican".data,
     [(GLUTEN, 0.40), (DAIRY, 0.65), (CORN, 0.70), (SOY, 0.25)]),
   ("indian".data,
     [(DAIRY, 0.70), (TREE_NUTS, 0.50), (GLUTEN, 0.45), (PEANUTS, 0.25)]),
   ("thai".data,
     [(PEANUTS, 0.60), (SHELLFISH, 0.55), (FISH, 0.60), (SOY, 0.50),
      (TREE_NUTS, 0.30), (GLUTEN, 0.30)]),
   ("french".data,
     [(DAIRY, 0.80), (GLUTEN, 0.70), (EGGS, 0.55), (SHELLFISH, 0.35),
      (TREE_NUTS, 0.30)]),
   ("american".data,
     [(GLUTEN, 0.70), (DAIRY, 0.60), (SOY, 0.55), (EGGS, 0.40)]),
   ("burger".data,
     [(GLUTEN, 0.90), (DAIRY, 0.65), (SOY, 0.75), (EGGS, 0.30), (SESAME, 0.40)]),
   ("vegan".data,
     [(DAIRY, 0.01), (EGGS, 0.01), (FISH, 0.01), (SHELLFISH, 0.01),
      (SOY, 0.75), (GLUTEN, 0.50), (TREE_NUTS, 0.45)])]

/-- Modelled from the spec: prior probability of an allergen for a cuisine
(§4.1(f)); an unknown or absent cuisine falls back to the default row. -/
def cuisinePrior (cuisine : Option (List Char)) (a : AllergenKind) : ℚ :=
  match cuisine with
  | none => defaultPriors a
  | some c =>
    match assocFind (lowerAll c) cuisinePriorTable with
    | none => defaultPriors a
    | some row => (assocFind a row).getD (defaultPriors a)

/-- Modelled from the spec: canned reasoning string for table-derived
evidence. -/
def tableReason : List Char := "knowledge base table match".data

/-- Modelled from the spec: canned reasoning string for explicit
declarations. -/
def declReason : List Char := "explicit allergen declaration".data

/-- Modelled from the spec: canned reasoning string for cuisine priors. -/
def priorReason : List Char := "cuisine-level prior probability".data

/-- Modelled from the spec: canned reasoning string for the
cross-contamination floor. -/
def ccReason : List Char := "shared-kitchen cross-contamination is always possible".data

/-- Modelled from the spec: the evidence items a single knowledge-base row
contributes for one allergen. -/
def entriesFor (a : AllergenKind) (kind : EvidenceKind) (key : List Char)
    (entries : List (AllergenKind × ℚ)) : List Evidence :=
  entries.filterMap (fun aw =>
    if aw.1 = a then
      some { allergen := a, kind := kind, snippet := key, reasoning := tableReason, weight := aw.2 }
    else none)

/-- Modelled from the spec: scan a knowledge-base table with a hit
predicate on the key, collecting evidence for one allergen. -/
def tableHits (hit : List Char → Bool) (kind : EvidenceKind)
    (table : List (List Char × List (AllergenKind × ℚ))) (a : AllergenKind) : List Evidence :=
  table.flatMap (fun row => if hit row.1 then entriesFor a kind row.1 row.2 else [])

/-- Modelled from the spec: is a knowledge-base ingredient key mentioned in
the item (§4.1(a)-(b): lowercase-normalised `ingredientsMentioned` or
description)? -/
def ingredientKeyMentioned (item : MenuItem) (key : List Char) : Bool :=
  item.ingredientsMentioned.any (fun ing => containsSeg key (lowerAll ing)) ||
    containsSeg key (lowerAll item.description)

/-- Modelled from the spec: step (b) of the Evidence Extractor (§4.1),
EXPLICIT_INGREDIENT evidence with weight from the ingredient table. -/
def ingredientHits (item : MenuItem) (a : AllergenKind) : List Evidence :=
  tableHits (ingredientKeyMentioned item) EvidenceKind.EXPLICIT_INGREDIENT ingredientTable a

/-- Modelled from the spec: step (c) of the Evidence Extractor (§4.1),
EXPLICIT_DECLARATION evidence when a declaration marker and the allergen
name both occur in the item text; its weight 0.97 sits in the specified
0.95 to 0.98 band. -/
def declEvidence (item : MenuItem) (a : AllergenKind) : List Evidence :=
  let t := lowerAll (menuItemText item)
  if declarationMarkers.any (fun m => containsSeg m t) &&
      (allergenTerms a).any (fun n => containsSeg n t) then
    [{ allergen := a, kind := EvidenceKind.EXPLICIT_DECLARATION, snippet := t,
       reasoning := declReason, weight := 0.97 }]
  else []

/-- Modelled from the spec: step (d) of the Evidence Extractor (§4.1),
DISH_ARCHETYPE evidence from the dish name. -/
def archetypeEvidence (item : MenuItem) (a : AllergenKind) : List Evidence :=
  tableHits (fun key => containsSeg key (lowerAll item.name))
    EvidenceKind.DISH_ARCHETYPE archetypeTable a

/-- Modelled from the spec: step (e) of the Evidence Extractor (§4.1),
COOKING_METHOD evidence from `preparationMethods`. -/
def cookingEvidence (item : MenuItem) (a : AllergenKind) : List Evidence :=
  tableHits (fun key => item.preparationMethods.any (fun m => containsSeg key (lowerAll m)))
    EvidenceKind.COOKING_METHOD cookingMethodTable a

/-- Modelled from the spec: the cuisine-prior fallback evidence of
§4.1(f), weight equal to the prior value itself. -/
def cuisinePriorEvidence (cuisine : Option (List Char)) (a : AllergenKind) : Evidence :=
  { allergen := a, kind := EvidenceKind.CUISINE_PRIOR,
    snippet := (cuisine.getD "default".data), reasoning := priorReason,
    weight := cuisinePrior cuisine a }

/-- Modelled from the spec: the always-appended cross-contamination
evidence of §4.1(g), weight 0.01. -/
def crossContaminationEvidence (a : AllergenKind) : Evidence :=
  { allergen := a, kind := EvidenceKind.CROSS_CONTAMINATION,
    snippet := "shared kitchen".data, reasoning := ccReason, weight := 0.01 }

/-- Modelled from the spec: the direct textual evidence of steps (b)-(e)
of the Evidence Extractor (§4.1). -/
def directEvidence (item : MenuItem) (a : AllergenKind) : List Evidence :=
  ingredientHits item a ++ declEvidence item a ++
    archetypeEvidence item a ++ cookingEvidence item a

/-- Modelled from the spec: the Evidence Extractor (§4.1) for one menu
item and one allergen: direct textual evidence (steps b-e), a cuisine
prior when there is none, and the cross-contamination floor (steps f-g). -/
def extractEvidence (item : MenuItem) (cuisine : Option (List Char)) (a : AllergenKind) :
    List Evidence :=
  (if (directEvidence item a).isEmpty then [cuisinePriorEvidence cuisine a]
   else directEvidence item a) ++ [crossContaminationEvidence a]

/-- Modelled from the spec: the maximum of the evidence weights
(`max(evidence[i].weight for all i)` in §4.2); 0 on the empty list, which
the extractor never produces. -/
def maxWeight : List Evidence → ℚ
  | [] => 0
  | [e] => e.weight
  | e :: e2 :: es => max e.weight (maxWeight (e2 :: es))

/-- Modelled from the spec: the Probability Combiner probability rule of
§4.2, `clamp(max(weights), 0.01, 0.98)`. -/
def combinedProbability (es : List Evidence) : ℚ := clamp (maxWeight es) 0.01 0.98

/-- Modelled from the spec: sum of the evidence weights. -/
def weightSum (es : List Evidence) : ℚ := (es.map Evidence.weight).sum

/-- Modelled from the spec: sum of the squared evidence weights. -/
def weightSqSum (es : List Evidence) : ℚ := (es.map (fun e => e.weight * e.weight)).sum

/-- Modelled from the spec: the Probability Combiner confidence rule of
§4.2, the self-weighted average `Σw²/Σw` (0 on a zero denominator, which
the extractor never produces). -/
def combinedConfidence (es : List Evidence) : ℚ :=
  if weightSum es = 0 then 0 else weightSqSum es / weightSum es

/-- Modelled from the spec: the per-dish output record (§3
`DishAllergenProfile`); `probabilities` and `evidence` are association
lists keyed by `AllergenKind`. -/
structure DishAllergenProfile where
  dishName : List Char
  probabilities : List (AllergenKind × ℚ)
  evidence : List (AllergenKind × List Evidence)
  confidence : ℚ
  safeFor : List (List Char)
  unsafeFor : List (List Char)
  warnings : List (List Char)

/-- Modelled from the spec: the per-allergen evidence map of one dish. -/
def dishEvidence (item : MenuItem) (cuisine : Option (List Char)) :
    List (AllergenKind × List Evidence) :=
  allAllergens.map (fun a => (a, extractEvidence item cuisine a))

/-- Modelled from the spec: the per-allergen probability map of one dish. -/
def dishProbabilities (item : MenuItem) (cuisine : Option (List Char)) :
    List (AllergenKind × ℚ) :=
  allAllergens.map (fun a => (a, combinedProbability (extractEvidence item cuisine a)))

/-- Modelled from the spec: the mean of the 11 per-allergen combiner
confidences (§4.3). -/
def meanAllergenConfidence (item : MenuItem) (cuisine : Option (List Char)) : ℚ :=
  ((allAllergens.map (fun a => combinedConfidence (extractEvidence item cuisine a))).sum) /
    (allAllergens.length : ℚ)

/-- Modelled from the spec: read a probability from a dish probability
map (missing key reads as 0). -/
def probOf (probs : List (AllergenKind × ℚ)) (a : AllergenKind) : ℚ :=
  (assocFind a probs).getD 0

/-- Modelled from the spec: dietary label "vegan". -/
def veganLabel : List Char := "vegan".data

/-- Modelled from the spec: dietary label "vegetarian". -/
def vegetarianLabel : List Char := "vegetarian".data

/-- Modelled from the spec: dietary label "gluten-free". -/
def glutenFreeLabel : List Char := "gluten-free".data

/-- Modelled from the spec: dietary label "dairy-free". -/
def dairyFreeLabel : List Char := "dairy-free".data

/-- Modelled from the spec: dietary label "nut-free". -/
def nutFreeLabel : List Char := "nut-free".data

/-- Modelled from the spec: the trigger table of the §4.3 safety
classification — each dietary label paired with whether it is violated by
the dish probabilities. -/
def dietAssessment (p : AllergenKind → ℚ) : List (List Char × Bool) :=
  [(veganLabel, decide ((0.1 : ℚ) < p DAIRY) || decide ((0.1 : ℚ) < p EGGS) ||
      decide ((0.1 : ℚ) < p FISH) || decide ((0.1 : ℚ) < p SHELLFISH)),
   (vegetarianLabel, decide ((0.1 : ℚ) < p FISH) || decide ((0.1 : ℚ) < p SHELLFISH)),
   (glutenFreeLabel, decide ((0.1 : ℚ) < p GLUTEN)),
   (dairyFreeLabel, decide ((0.1 : ℚ) < p DAIRY)),
   (nutFreeLabel, decide ((0.1 : ℚ) < p PEANUTS) || decide ((0.1 : ℚ) < p TREE_NUTS))]

/-- Modelled from the spec: the triggered labels go to `unsafeFor`
(§4.3). -/
def unsafeForOf (p : AllergenKind → ℚ) : List (List Char) :=
  (dietAssessment p).filterMap (fun lb => if lb.2 then some lb.1 else none)

/-- Modelled from the spec: any label not triggered is added to `safeFor`
(§4.3). -/
def safeForOf (p : AllergenKind → ℚ) : List (List Char) :=
  (dietAssessment p).filterMap (fun lb => if lb.2 then none else some lb.1)

/-- Modelled from the spec: readable allergen names, for warning
strings. -/
def allergenName : AllergenKind → List Char
  | GLUTEN => "gluten".data
  | DAIRY => "dairy".data
  | EGGS => "eggs".data
  | SOY => "soy".data
  | PEANUTS => "peanuts".data
  | TREE_NUTS => "tree nuts".data
  | SHELLFISH => "shellfish".data
  | FISH => "fish".data
  | SESAME => "sesame".data
  | CORN => "corn".data
  | SULFITES => "sulfites".data

/-- Modelled from the spec: does an evidence list consist only of
CUISINE_PRIOR / CROSS_CONTAMINATION items (no textual support, §4.3 and
§4.5 rule 2)? -/
def onlyIndirectKinds (es : List Evidence) : Bool :=
  es.all (fun e => decide (e.kind = EvidenceKind.CUISINE_PRIOR) ||
    decide (e.kind = EvidenceKind.CROSS_CONTAMINATION))

/-- Modelled from the spec: the warning attached to a claim with no direct
textual support (§4.3). -/
def noDirectSupportWarning (a : AllergenKind) : List Char :=
  "allergen claim with no direct textual support: ".data ++ allergenName a

/-- Modelled from the spec: the §4.3 warning rule — warn per allergen whose
only evidence kinds are indirect and whose probability exceeds 0.3. -/
def dishWarningsOf (evs : List (AllergenKind × List Evidence)) (p : AllergenKind → ℚ) :
    List (List Char) :=
  evs.filterMap (fun ae =>
    if onlyIndirectKinds ae.2 && decide ((0.3 : ℚ) < p ae.1) then
      some (noDirectSupportWarning ae.1)
    else none)

/-- Modelled from the spec: the Dish Analyzer (§4.3); the absent
`_analyze_dish` of `agents/allergen_analyzer_agent.py`.  Pure function of
the menu item, cuisine label and OCR confidence. -/
def analyzeDish (item : MenuItem) (cuisine : Option (List Char)) (ocrConfidence : ℚ) :
    DishAllergenProfile :=
  let evs := dishEvidence item cuisine
  let probs := dishProbabilities item cuisine
  let p := probOf probs
  { dishName := item.name
    probabilities := probs
    evidence := evs
    confidence := clamp (ocrConfidence * meanAllergenConfidence item cuisine) 0 1
    safeFor := safeForOf p
    unsafeFor := unsafeForOf p
    warnings := dishWarningsOf evs p }

/-- Modelled from the spec: per-allergen venue statistics (§3
`VenueAllergenSummary.stats`). -/
structure AllergenStats where
  dishCount : ℕ
  totalDishes : ℕ
  avgProbability : ℚ

/-- Modelled from the spec: the venue-level aggregate record (§3
`VenueAllergenSummary`). -/
structure VenueAllergenSummary where
  prevalence : List (AllergenKind × ℚ)
  stats : List (AllergenKind × AllergenStats)
  safestDishes : List (List Char)
  highestRiskDishes : List (List Char)
  generalWarnings : List (List Char)

/-- Modelled from the spec: the single warning of the zero-dish degenerate
case (§4.4). -/
def noMenuWarning : List Char := "no menu items available for analysis".data

/-- Modelled from the spec: the fixed shared-kitchen warning of §4.4. -/
def sharedKitchenWarning : List Char :=
  "shared-kitchen cross-contamination is possible".data

/-- Modelled from the spec: the high-prevalence warning template of §4.4. -/
def highPrevalenceWarning (a : AllergenKind) : List Char :=
  "High prevalence of ".data ++ allergenName a ++ " across menu".data

/-- Modelled from the spec: a profile probability read back out of a
stored profile. -/
def profileProb (p : DishAllergenProfile) (a : AllergenKind) : ℚ :=
  (assocFind a p.probabilities).getD 0

/-- Modelled from the spec: number of dishes with probability above 0.5
for an allergen (§4.4). -/
def dishCountFor (profiles : List DishAllergenProfile) (a : AllergenKind) : ℕ :=
  (profiles.filter (fun p => decide ((0.5 : ℚ) < profileProb p a))).length

/-- Modelled from the spec: mean probability of an allergen across the
profiles (§4.4). -/
def avgProbabilityFor (profiles : List DishAllergenProfile) (a : AllergenKind) : ℚ :=
  ((profiles.map (fun p => profileProb p a)).sum) / (profiles.length : ℚ)

/-- Modelled from the spec: venue prevalence of an allergen, the fraction
of dishes with probability above 0.5 (§4.4). -/
def prevalenceFor (profiles : List DishAllergenProfile) (a : AllergenKind) : ℚ :=
  (dishCountFor profiles a : ℚ) / (profiles.length : ℚ)

/-- Modelled from the spec: sum of a dish profile's probabilities across
all allergens (the §4.4 risk total used to rank dishes). -/
def totalRisk (p : DishAllergenProfile) : ℚ := (p.probabilities.map Prod.snd).sum

/-- Modelled from the spec: ascending risk order on dish profiles. -/
def byRiskAsc (a b : DishAllergenProfile) : Prop := totalRisk a ≤ totalRisk b

/-- Modelled from the spec: descending risk order on dish profiles. -/
def byRiskDesc (a b : DishAllergenProfile) : Prop := totalRisk b ≤ totalRisk a

instance : DecidableRel byRiskAsc :=
  fun a b => inferInstanceAs (Decidable (totalRisk a ≤ totalRisk b))

instance : DecidableRel byRiskDesc :=
  fun a b => inferInstanceAs (Decidable (totalRisk b ≤ totalRisk a))

/-- Modelled from the spec: the Venue Aggregator (§4.4); the absent
`_aggregate_venue_summary` of `agents/allergen_analyzer_agent.py`.  The
zero-dish case returns the empty summary with the single no-menu warning
and never fails. -/
def aggregateVenueSummary (profiles : List DishAllergenProfile) : VenueAllergenSummary :=
  if profiles.isEmpty then
    { prevalence := [], stats := [], safestDishes := [], highestRiskDishes := [],
      generalWarnings := [noMenuWarning] }
  else
    { prevalence := allAllergens.map (fun a => (a, prevalenceFor profiles a))
      stats := allAllergens.map (fun a =>
        (a, { dishCount := dishCountFor profiles a, totalDishes := profiles.length,
              avgProbability := avgProbabilityFor profiles a }))
      safestDishes := ((List.insertionSort byRiskAsc profiles).take 3).map DishAllergenProfile.dishName
      highestRiskDishes := ((List.insertionSort byRiskDesc profiles).take 3).map DishAllergenProfile.dishName
      generalWarnings :=
        (allAllergens.filterMap (fun a =>
          if decide ((0.7 : ℚ) ≤ prevalenceFor profiles a) then
            some (highPrevalenceWarning a)
          else none)) ++ [sharedKitchenWarning] }

/-- Modelled from the spec: issue severities (§3 `ValidationIssue`). -/
inductive Severity
  | CRITICAL | HIGH | MEDIUM | LOW | INFO
deriving DecidableEq

/-- Modelled from the spec: issue categories (§3 `ValidationIssue`). -/
inductive IssueCategory
  | ALLERGEN_SAFETY | DATA_CONSISTENCY | SCRAPING_COMPLIANCE
  | SOURCE_CREDIBILITY | CONFIDENCE | COMPLETENESS | OUTPUT_FORMAT
deriving DecidableEq

/-- Modelled from the spec: a validation issue (§3). -/
structure ValidationIssue where
  severity : Severity
  category : IssueCategory
  message : List Char
  technicalDetail : List Char
  affectedField : List Char
  suggestedAction : List Char

/-- Modelled from the spec: the overall validation status (§3
`ValidationResult`). -/
inductive ValidationStatus
  | PASS | PASS_WITH_WARNINGS | BLOCKED | NEEDS_REVIEW
deriving DecidableEq

/-- Modelled from the spec: the scraping-compliance flags of the input
contract (§6). -/
structure ScrapingMetadata where
  robotsViolations : ℕ
  rateLimitHits : ℕ

/-- Modelled from the spec: the complete upstream bundle the Safety Gate
consumes (§4.5). -/
structure AnalysisBundle where
  profiles : List DishAllergenProfile
  summary : VenueAllergenSummary
  ocrConfidence : ℚ
  scrapingMetadata : ScrapingMetadata

/-- Modelled from the spec: the Safety Gate output (§3
`ValidationResult`); `blockedData` is the blocked payload (the entire
bundle for a compliance block, the blocked profiles otherwise). -/
structure ValidationResult where
  status : ValidationStatus
  issues : List ValidationIssue
  dataQualityScore : ℚ
  allergenSafetyScore : ℚ
  userWarnings : List (List Char)
  passedData : List DishAllergenProfile
  blockedData : Option AnalysisBundle

/-- Modelled from the spec: the CRITICAL issue raised by rule 1 of §4.5. -/
def scrapingCriticalIssue : ValidationIssue :=
  { severity := Severity.CRITICAL, category := IssueCategory.SCRAPING_COMPLIANCE,
    message := "scraping compliance violation".data,
    technicalDetail := "robots.txt violation or rate-limit abuse".data,
    affectedField := "scrapingMetadata".data,
    suggestedAction := "drop the non-compliant data source".data }

/-- Modelled from the spec: rule 1 of §4.5 — any robots.txt violation or a
rate-limit-hit count above 5 is one CRITICAL scraping-compliance issue. -/
def scrapingComplianceIssues (m : ScrapingMetadata) : List ValidationIssue :=
  if 0 < m.robotsViolations ∨ 5 < m.rateLimitHits then [scrapingCriticalIssue] else []

/-- Modelled from the spec: does a profile carry a high allergen claim
whose only support is indirect (rule 2 of §4.5)? -/
def hasUnsupportedHighClaim (p : DishAllergenProfile) : Bool :=
  p.evidence.any (fun ae => onlyIndirectKinds ae.2 && decide ((0.5 : ℚ) < profileProb p ae.1))

/-- Modelled from the spec: the CRITICAL issue for one dish with an
unsupported high allergen claim (rule 2 of §4.5). -/
def unsupportedClaimIssue (p : DishAllergenProfile) : ValidationIssue :=
  { severity := Severity.CRITICAL, category := IssueCategory.ALLERGEN_SAFETY,
    message := "high allergen claim without textual evidence".data,
    technicalDetail := p.dishName,
    affectedField := "probabilities".data,
    suggestedAction := "block this allergen claim".data }

/-- Modelled from the spec: the CRITICAL issue for venue OCR confidence
below 0.5 (rule 2 of §4.5). -/
def lowOcrIssue : ValidationIssue :=
  { severity := Severity.CRITICAL, category := IssueCategory.ALLERGEN_SAFETY,
    message := "OCR too unreliable to trust derived claims".data,
    technicalDetail := "venue ocrConfidence below 0.5".data,
    affectedField := "ocrConfidence".data,
    suggestedAction := "block the allergen section".data }

/-- Modelled from the spec: rule 2 of §4.5, allergen-safety issues. -/
def allergenSafetyIssues (b : AnalysisBundle) : List ValidationIssue :=
  (b.profiles.filter hasUnsupportedHighClaim).map unsupportedClaimIssue ++
    (if b.ocrConfidence < 0.5 then [lowOcrIssue] else [])

/-- Modelled from the spec: rule 3 of §4.5, the per-dish confidence
thresholds. -/
def confidenceIssueFor (p : DishAllergenProfile) : Option ValidationIssue :=
  if p.confidence < 0.3 then
    some { severity := Severity.CRITICAL, category := IssueCategory.CONFIDENCE,
           message := "dish confidence below 0.3".data, technicalDetail := p.dishName,
           affectedField := "confidence".data, suggestedAction := "block this dish".data }
  else if p.confidence < 0.5 then
    some { severity := Severity.HIGH, category := IssueCategory.CONFIDENCE,
           message := "dish confidence between 0.3 and 0.5".data, technicalDetail := p.dishName,
           affectedField := "confidence".data, suggestedAction := "warn prominently".data }
  else if p.confidence < 0.7 then
    some { severity := Severity.MEDIUM, category := IssueCategory.CONFIDENCE,
           message := "dish confidence between 0.5 and 0.7".data, technicalDetail := p.dishName,
           affectedField := "confidence".data, suggestedAction := "warn".data }
  else none

/-- Modelled from the spec: rule 4 of §4.5, the completeness check. -/
def completenessIssues (b : AnalysisBundle) : List ValidationIssue :=
  if b.profiles.isEmpty then
    [{ severity := Severity.MEDIUM, category := IssueCategory.COMPLETENESS,
       message := "no menu found".data, technicalDetail := "zero menu items analyzed".data,
       affectedField := "profiles".data, suggestedAction := "note the missing menu".data }]
  else []

/-- Modelled from the spec: count of issues at one severity. -/
def severityCount (issues : List ValidationIssue) (s : Severity) : ℕ :=
  issues.countP (fun i => decide (i.severity = s))

/-- Modelled from the spec: count of allergen-safety issues at one
severity. -/
def allergenSeverityCount (issues : List ValidationIssue) (s : Severity) : ℕ :=
  issues.countP (fun i =>
    decide (i.severity = s) && decide (i.category = IssueCategory.ALLERGEN_SAFETY))

/-- Modelled from the spec: mean dish confidence across the venue
(§4.5). -/
def venueOverallConfidence (b : AnalysisBundle) : ℚ :=
  ((b.profiles.map DishAllergenProfile.confidence).sum) / (b.profiles.length : ℚ)

/-- Fixed user-warning template of §6, low-confidence variant. -/
def lowConfidenceTemplate : List Char :=
  "⚠️ Allergen data has lower confidence due to limited menu information".data

/-- Fixed user-warning template of §6, cuisine-estimate variant. -/
def cuisineEstimateTemplate : List Char :=
  "⚠️ Allergen estimates based on typical cuisine - verify with restaurant".data

/-- Fixed user-warning template of §6, no-menu variant. -/
def noMenuTemplate : List Char :=
  "ℹ️ No menu found online - call restaurant to verify allergen safety".data

/-- Fixed user-warning template of §6, blocked variant. -/
def blockedTemplate : List Char :=
  "⚠️ ALLERGEN DATA BLOCKED: Menu text quality too poor for reliable allergen detection".data

/-- Modelled from the spec: template substitution of an issue into one of
the fixed §6 user-warning strings. -/
def issueUserWarning (i : ValidationIssue) : Option (List Char) :=
  match i.category, i.severity with
  | IssueCategory.CONFIDENCE, _ => some lowConfidenceTemplate
  | IssueCategory.ALLERGEN_SAFETY, Severity.CRITICAL => some blockedTemplate
  | IssueCategory.ALLERGEN_SAFETY, _ => some cuisineEstimateTemplate
  | IssueCategory.COMPLETENESS, _ => some noMenuTemplate
  | _, _ => none

/-- Modelled from the spec: is a profile blocked dish-level by rules 2-3
of §4.5? -/
def dishBlocked (p : DishAllergenProfile) : Bool :=
  hasUnsupportedHighClaim p || decide (p.confidence < 0.3)

/-- Modelled from the spec: the Safety Gate (§4.5); the validator that the
safety/QA design document describes and that is absent from the source
tree.  Rules are evaluated in the fixed §4.5 order; any CRITICAL issue
forces BLOCKED, any HIGH or MEDIUM issue alone gives PASS_WITH_WARNINGS,
otherwise PASS. -/
def validateBundle (b : AnalysisBundle) : ValidationResult :=
  let scraping := scrapingComplianceIssues b.scrapingMetadata
  let issues := scraping ++ allergenSafetyIssues b ++
    b.profiles.filterMap confidenceIssueFor ++ completenessIssues b
  let nC : ℚ := (severityCount issues Severity.CRITICAL : ℚ)
  let nH : ℚ := (severityCount issues Severity.HIGH : ℚ)
  let nM : ℚ := (severityCount issues Severity.MEDIUM : ℚ)
  let nL : ℚ := (severityCount issues Severity.LOW : ℚ)
  let aC : ℚ := (allergenSeverityCount issues Severity.CRITICAL : ℚ)
  let aH : ℚ := (allergenSeverityCount issues Severity.HIGH : ℚ)
  let aM : ℚ := (allergenSeverityCount issues Severity.MEDIUM : ℚ)
  let blockedProfiles := b.profiles.filter dishBlocked
  { status :=
      if issues.any (fun i => decide (i.severity = Severity.CRITICAL)) then
        ValidationStatus.BLOCKED
      else if issues.any (fun i =>
          decide (i.severity = Severity.HIGH) || decide (i.severity = Severity.MEDIUM)) then
        ValidationStatus.PASS_WITH_WARNINGS
      else ValidationStatus.PASS
    issues := issues
    dataQualityScore := clamp (1 - 0.3 * nC - 0.1 * nH - 0.05 * nM - 0.02 * nL) 0 1
    allergenSafetyScore :=
      clamp (venueOverallConfidence b - 0.4 * aC - 0.15 * aH - 0.05 * aM) 0 1
    userWarnings := issues.filterMap issueUserWarning
    passedData :=
      if (not scraping.isEmpty) || decide (b.ocrConfidence < 0.5) then []
      else b.profiles.filter (fun p => not (dishBlocked p))
    blockedData :=
      if not scraping.isEmpty then some b
      else if decide (b.ocrConfidence < 0.5) then some b
      else if blockedProfiles.isEmpty then none
      else some { b with profiles := blockedProfiles } }

/-- Accumulate decimal digits into a natural number. -/
def digitsToNat : List Char → ℕ → ℕ
  | [], acc => acc
  | c :: cs, acc => digitsToNat cs (acc * 10 + (c.toNat - 48))

/-- Parse a maximal leading run of decimal digits; `none` when there is no
digit (the JavaScript parsers return NaN then). -/
def parseNatSeg (s : List Char) : Option ℕ :=
  let ds := s.takeWhile Char.isDigit
  if ds.isEmpty then none else some (digitsToNat ds 0)

/-- Model of JavaScript `parseInt(s)` (radix 10): skip leading whitespace,
optional sign, then a maximal digit run; `none` models NaN.  Exponents and
other `Number` syntax are not used by the routes under analysis. -/
def jsParseInt (s : List Char) : Option ℤ :=
  let t := s.dropWhile Char.isWhitespace
  match t with
  | '-' :: rest => (parseNatSeg rest).map (fun n => -(n : ℤ))
  | '+' :: rest => (parseNatSeg rest).map (fun n => (n : ℤ))
  | rest => (parseNatSeg rest).map (fun n => (n : ℤ))

/-- Model of JavaScript `parseFloat(s)`: skip leading whitespace, optional
sign, integer digits, optional fractional digits; `none` models NaN.
Exponent syntax is not used by the routes under analysis. -/
def jsParseFloat (s : List Char) : Option ℚ :=
  let t := s.dropWhile Char.isWhitespace
  let sr : ℚ × List Char :=
    match t with
    | '-' :: rest => (-1, rest)
    | '+' :: rest => (1, rest)
    | rest => (1, rest)
  let intDs := sr.2.takeWhile Char.isDigit
  let rest2 := sr.2.dropWhile Char.isDigit
  let fracDs : List Char :=
    match rest2 with
    | '.' :: r => r.takeWhile Char.isDigit
    | _ => []
  if intDs.isEmpty && fracDs.isEmpty then none
  else
    some (sr.1 * ((digitsToNat intDs 0 : ℚ) +
      (digitsToNat fracDs 0 : ℚ) / (10 ^ fracDs.length)))

/-- Model of JavaScript `Math.round` on an exact rational. -/
def jsRound (q : ℚ) : ℤ := ⌊q + 1 / 2⌋

/-- A JavaScript `x < c` comparison where `x` may be NaN (`none`): NaN
compares false. -/
def optIntLt (x : Option ℤ) (c : ℤ) : Bool :=
  match x with
  | none => false
  | some v => decide (v < c)

/-- A JavaScript `x > c` comparison where `x` may be NaN (`none`): NaN
compares false. -/
def optIntGt (x : Option ℤ) (c : ℤ) : Bool :=
  match x with
  | none => false
  | some v => decide (c < v)

/-- A JavaScript `x <= c` comparison where `c` may be NaN (`none`): NaN
compares false. -/
def optIntLe (v : ℤ) (c : Option ℤ) : Bool :=
  match c with
  | none => false
  | some b => decide (v ≤ b)

/-- Model of JavaScript `Array.prototype.slice(0, bound)`: a negative
bound counts from the end. -/
def jsSliceTo {α : Type} (bound : ℤ) (l : List α) : List α :=
  if bound < 0 then l.take (l.length - (-bound).toNat) else l.take bound.toNat

/-- Model of `slice(0, limit)` where `limit` may be NaN (`none`): NaN
converts to 0, giving the empty slice. -/
def jsSliceOpt {α : Type} : Option ℤ → List α → List α
  | none, _ => []
  | some b, l => jsSliceTo b l

/-- A geographic point, from the sample-restaurants route
(`location: { lat, lng }`). -/
structure GeoPoint where
  lat : ℚ
  lng : ℚ

/-- A restaurant record of the sample-restaurants route (the fields of
`SAMPLE_RESTAURANTS`). -/
structure Restaurant where
  id : List Char
  name : List Char
  location : GeoPoint
  rating : ℚ
  distanceMeters : ℤ
  cuisine : List (List Char)
  address : List Char
  phone : List Char
  website : Option (List Char)
  isOpen : Bool
  summaryAllergenProfile : List (List Char × ℚ)

/-- The `SAMPLE_RESTAURANTS` constant of the sample-restaurants route,
translated field by field. -/
def SAMPLE_RESTAURANTS : List Restaurant :=
  [{ id := "1".data, name := "The French Laundry".data,
     location := { lat := 37.8029, lng := -122.4481 }, rating := 4.8,
     distanceMeters := 1200, cuisine := ["French".data, "Fine Dining".data],
     address := "6640 Washington St, Yountville, CA 94599".data,
     phone := "(707) 944-2380".data, website := some "https://www.thomaskeller.com/tfl".data,
     isOpen := true,
     summaryAllergenProfile := [("gluten".data, 0.3), ("dairy".data, 0.7), ("nuts".data, 0.2)] },
   { id := "2".data, name := "Chez Panisse".data,
     location := { lat := 37.8025, lng := -122.4475 }, rating := 4.6,
     distanceMeters := 800, cuisine := ["California".data, "Farm-to-Table".data],
     address := "1517 Shattuck Ave, Berkeley, CA 94709".data,
     phone := "(510) 548-5525".data, website := some "https://www.chezpanisse.com".data,
     isOpen := true,
     summaryAllergenProfile := [("gluten".data, 0.4), ("dairy".data, 0.5), ("nuts".data, 0.3)] },
   { id := "3".data, name := "Swan Oyster Depot".data,
     location := { lat := 37.8035, lng := -122.4490 }, rating := 4.4,
     distanceMeters := 1500, cuisine := ["Seafood".data, "American".data],
     address := "1517 Polk St, San Francisco, CA 94109".data,
     phone := "(415) 673-1101".data, website := none,
     isOpen := true,
     summaryAllergenProfile := [("shellfish".data, 0.9), ("gluten".data, 0.2), ("dairy".data, 0.1)] },
   { id := "4".data, name := "Tartine Bakery".data,
     location := { lat := 37.8015, lng := -122.4465 }, rating := 4.2,
     distanceMeters := 600, cuisine := ["Bakery".data, "French".data],
     address := "600 Guerrero St, San Francisco, CA 94110".data,
     phone := "(415) 487-2600".data, website := some "https://www.tartinebakery.com".data,
     isOpen := true,
     summaryAllergenProfile := [("gluten".data, 0.8), ("dairy".data, 0.6), ("eggs".data, 0.4)] },
   { id := "5".data, name := "State Bird Provisions".data,
     location := { lat := 37.8040, lng := -122.4485 }, rating := 4.5,
     distanceMeters := 1100, cuisine := ["American".data, "Innovative".data],
     address := "1529 Fillmore St, San Francisco, CA 94115".data,
     phone := "(415) 795-1272".data, website := some "https://www.statebirdsf.com".data,
     isOpen := true,
     summaryAllergenProfile := [("gluten".data, 0.3), ("dairy".data, 0.4), ("nuts".data, 0.2)] }]

/-- The map step of the sample route: recompute `distanceMeters` for a
restaurant from the query point via the distance function and
`Math.round`.  The floating-point Haversine (`calculateDistance`) uses
transcendental trigonometry and is passed in as an abstract distance
function. -/
def updateDistance (dist : ℚ → ℚ → ℚ → ℚ → ℚ) (lat lng : ℚ) (r : Restaurant) : Restaurant :=
  { r with distanceMeters := jsRound (dist lat lng r.location.lat r.location.lng) }

/-- Ordering on restaurants by the stored `distanceMeters`, the comparator
`(a, b) => a.distanceMeters - b.distanceMeters` of the sample route. -/
def byDist (a b : Restaurant) : Prop := a.distanceMeters ≤ b.distanceMeters

instance : DecidableRel byDist :=
  fun a b => inferInstanceAs (Decidable (a.distanceMeters ≤ b.distanceMeters))

instance : IsTotal Restaurant byDist :=
  ⟨fun a b => le_total a.distanceMeters b.distanceMeters⟩

instance : IsTrans Restaurant byDist :=
  ⟨fun _ _ _ h1 h2 => le_trans h1 h2⟩

/-- JSON body of a sample-restaurants response: either the error object or
the restaurants payload. -/
inductive SampleBody
  | errJson (message : List Char)
  | okJson (restaurants : List Restaurant) (total : ℕ)

/-- A sample-restaurants route response: HTTP status plus JSON body. -/
structure SampleResponse where
  status : ℕ
  body : SampleBody

/-- Error message of the lat/lng validation branch (both routes). -/
def invalidLatLngMessage : List Char :=
  "Invalid latitude or longitude parameters".data

/-- Error message of the radius validation branch (both routes). -/
def invalidRadiusMessage : List Char :=
  "Radius must be between 100m and 50km".data

/-- The GET handler of the sample-restaurants route, translated from the
source: parse and validate the query, recompute distances, filter by
radius, sort by distance, and truncate to `limit`.  The floating-point
Haversine is abstracted as `dist`. -/
def sampleRestaurantsGET (dist : ℚ → ℚ → ℚ → ℚ → ℚ)
    (latS lngS radiusS limitS : Option (List Char)) : SampleResponse :=
  let latQ := jsParseFloat (latS.getD [])
  let lngQ := jsParseFloat (lngS.getD [])
  let radiusQ := jsParseInt (radiusS.getD "5000".data)
  let limitQ := jsParseInt (limitS.getD "20".data)
  if latQ.isNone || lngQ.isNone then
    { status := 400, body := SampleBody.errJson invalidLatLngMessage }
  else if optIntLt radiusQ 100 || optIntGt radiusQ 50000 then
    { status := 400, body := SampleBody.errJson invalidRadiusMessage }
  else
    let nearby := (SAMPLE_RESTAURANTS.map
      (updateDistance dist (latQ.getD 0) (lngQ.getD 0))).filter
      (fun r => optIntLe r.distanceMeters radiusQ)
    let limited := jsSliceOpt limitQ (List.insertionSort byDist nearby)
    { status := 200, body := SampleBody.okJson limited limited.length }

/-- The restaurants list carried by a sample-restaurants response (empty
for an error body). -/
def sampleResponseRestaurants (resp : SampleResponse) : List Restaurant :=
  match resp.body with
  | SampleBody.errJson _ => []
  | SampleBody.okJson rs _ => rs

/-- Outcome of the Flask backend call made by
`src/app/api/restaurants/route.ts`, abstracted as an input: either the
research payload or an error response. -/
inductive FlaskOutcome
  | ok (withResearch withoutResearch : List Restaurant) (totalFound totalResearched : ℕ)
  | err (status : ℕ) (message : List Char)

/-- JSON body of a restaurants-route response. -/
inductive ResearchBody
  | errJson (message : List Char)
  | okJson (restaurants : List Restaurant) (total researched : ℕ)

/-- A restaurants-route response: HTTP status, JSON body, and whether the
Flask backend was contacted before responding. -/
structure ResearchResponse where
  status : ℕ
  body : ResearchBody
  flaskCalled : Bool

/-- The GET handler of `src/app/api/restaurants/route.ts`, translated from
the source: parse and validate the query, then proxy the Flask research
endpoint; validation failures return 400 without any backend request. -/
def restaurantsRouteGET (flask : FlaskOutcome)
    (latS lngS radiusS researchLimitS : Option (List Char)) : ResearchResponse :=
  let latQ := jsParseFloat (latS.getD [])
  let lngQ := jsParseFloat (lngS.getD [])
  let radiusQ := jsParseInt (radiusS.getD "5000".data)
  if latQ.isNone || lngQ.isNone then
    { status := 400, body := ResearchBody.errJson invalidLatLngMessage, flaskCalled := false }
  else if optIntLt radiusQ 100 || optIntGt radiusQ 50000 then
    { status := 400, body := ResearchBody.errJson invalidRadiusMessage, flaskCalled := false }
  else
    match flask with
    | FlaskOutcome.ok withResearch withoutResearch totalFound totalResearched =>
      { status := 200,
        body := ResearchBody.okJson (withResearch ++ withoutResearch) totalFound totalResearched,
        flaskCalled := true }
    | FlaskOutcome.err st msg =>
      { status := st, body := ResearchBody.errJson msg, flaskCalled := true }

/-- Descending-risk ordering on allergen profile entries, the comparator
`(a, b) => b[1] - a[1]` of `RestaurantPopup.formatAllergenProfile`. -/
def riskDesc (a b : List Char × ℚ) : Prop := b.2 ≤ a.2

instance : DecidableRel riskDesc :=
  fun a b => inferInstanceAs (Decidable (b.2 ≤ a.2))

instance : IsTotal (List Char × ℚ) riskDesc :=
  ⟨fun a b => le_total b.2 a.2⟩

instance : IsTrans (List Char × ℚ) riskDesc :=
  ⟨fun _ _ _ h1 h2 => le_trans h2 h1⟩

/-- The `formatAllergenProfile` helper of the `RestaurantPopup` component,
translated from the source: keep entries with risk above 0.3, sort by
descending risk, keep the top 3; `none` models the `null` returned when
the profile is absent or nothing passes the filter. -/
def formatAllergenProfile (profile : Option (List (List Char × ℚ))) :
    Option (List (List Char × ℚ)) :=
  match profile with
  | none => none
  | some p =>
    let allergens :=
      (List.insertionSort riskDesc (p.filter (fun e => decide ((0.3 : ℚ) < e.2)))).take 3
    if allergens.length = 0 then none else some allergens

/-- Modelled from the spec: the EXPLICIT_DECLARATION gluten evidence item
emitted for a menu item carrying a wheat declaration. -/
def glutenDeclEvidence (item : MenuItem) : Evidence :=
  { allergen := AllergenKind.GLUTEN, kind := EvidenceKind.EXPLICIT_DECLARATION,
    snippet := lowerAll (menuItemText item), reasoning := declReason, weight := 0.97 }

/-- Concrete menu item used to instantiate the analyzer theorems: a
cheeseburger whose snippet carries an explicit allergen declaration. -/
def sampleMenuItem : MenuItem :=
  { name := "Cheeseburger".data
    description := "Classic cheeseburger with lettuce and tomato".data
    menuSection := "BURGERS".data
    ingredientsMentioned := ["cheese".data]
    preparationMethods := ["fried".data]
    sourceSnippet := "Cheeseburger - Contains: wheat, dairy, soy".data }

/-- Concrete dish profile used to instantiate the aggregator theorems. -/
def sampleProfile : DishAllergenProfile :=
  { dishName := "Tofu Scramble".data
    probabilities := [(AllergenKind.GLUTEN, 0.9), (AllergenKind.SOY, 0.8)]
    evidence := []
    confidence := 0.8
    safeFor := []
    unsafeFor := []
    warnings := [] }

/-- Concrete analysis bundle with one robots.txt violation, used to
instantiate the safety-gate theorem. -/
def sampleBundle : AnalysisBundle :=
  { profiles := []
    summary := aggregateVenueSummary []
    ocrConfidence := 0.9
    scrapingMetadata := { robotsViolations := 1, rateLimitHits := 0 } }

/-- Concrete archetype evidence item used to instantiate the combiner
theorem. -/
def evidenceA : Evidence :=
  { allergen := AllergenKind.GLUTEN, kind := EvidenceKind.DISH_ARCHETYPE,
    snippet := "burger".data, reasoning := tableReason, weight := 0.9 }

/-- Concrete cross-contamination evidence item used to instantiate the
combiner theorem. -/
def evidenceB : Evidence :=
  { allergen := AllergenKind.GLUTEN, kind := EvidenceKind.CROSS_CONTAMINATION,
    snippet := "shared kitchen".data, reasoning := ccReason, weight := 0.01 }

/-- Degenerate concrete distance function used to instantiate the
sample-route theorems. -/
def zeroDist : ℚ → ℚ → ℚ → ℚ → ℚ := fun _ _ _ _ => 0

/-- Characterization of the prefix test: `startsWithSeg pat s` holds
exactly when `s` extends `pat`. -/
theorem startsWithSeg_iff (pat s : List Char) :
    startsWithSeg pat s = true ↔ ∃ r, s = pat ++ r := by
  induction pat generalizing s with
  | nil => simp [startsWithSeg]
  | cons c cs ih =>
    cases s with
    | nil => simp [startsWithSeg]
    | cons d ds =>
      simp only [startsWithSeg, Bool.and_eq_true, decide_eq_true_eq, ih, List.cons_append,
        List.cons.injEq]
      constructor
      · rintro ⟨rfl, r, rfl⟩
        exact ⟨r, rfl, rfl⟩
      · rintro ⟨r, rfl, rfl⟩
        exact ⟨rfl, r, rfl⟩

/-- Characterization of segment containment: `containsSeg pat s` holds
exactly when `s` decomposes around `pat`. -/
theorem containsSeg_iff (pat s : List Char) :
    containsSeg pat s = true ↔ ∃ l r, s = l ++ (pat ++ r) := by
  induction s with
  | nil =>
    simp only [containsSeg, List.isEmpty_iff]
    constructor
    · rintro rfl
      exact ⟨[], [], rfl⟩
    · rintro ⟨l, r, h⟩
      rcases List.append_eq_nil.mp h.symm with ⟨rfl, h2⟩
      rcases List.append_eq_nil.mp h2 with ⟨rfl, rfl⟩
      rfl
  | cons d ds ih =>
    simp only [containsSeg, Bool.or_eq_true, startsWithSeg_iff, ih]
    constructor
    · rintro (⟨r, h⟩ | ⟨l, r, h⟩)
      · exact ⟨[], r, by simpa using h⟩
      · exact ⟨d :: l, r, by simp [h]⟩
    · rintro ⟨l, r, h⟩
      cases l with
      | nil => exact Or.inl ⟨r, by simpa using h⟩
      | cons x xs =>
        injection h with h1 h2
        exact Or.inr ⟨xs, r, h2⟩

/-- Segment containment is preserved by mapping a character function over
both pattern and text. -/
theorem containsSeg_map (f : Char → Char) (pat s : List Char)
    (h : containsSeg pat s = true) : containsSeg (pat.map f) (s.map f) = true := by
  rcases (containsSeg_iff pat s).mp h with ⟨l, r, rfl⟩
  exact (containsSeg_iff _ _).mpr ⟨l.map f, r.map f, by simp⟩

/-- A segment of a contained segment is itself contained. -/
theorem containsSeg_sub (p pat s u v : List Char) (hp : pat = u ++ (p ++ v))
    (h : containsSeg pat s = true) : containsSeg p s = true := by
  rcases (containsSeg_iff pat s).mp h with ⟨l, r, rfl⟩
  subst hp
  refine (containsSeg_iff _ _).mpr ⟨l ++ u, v ++ r, ?_⟩
  simp

/-- The clamp of any value lies in the clamping interval. -/
theorem clamp_mem (x lo hi : ℚ) (h : lo ≤ hi) :
    lo ≤ clamp x lo hi ∧ clamp x lo hi ≤ hi :=
  ⟨le_min (le_max_right x lo) h, min_le_right _ _⟩

/-- A lower bound below both the value and the ceiling survives
clamping. -/
theorem le_clamp (y x lo hi : ℚ) (hx : y ≤ x) (hhi : y ≤ hi) : y ≤ clamp x lo hi :=
  le_min (hx.trans (le_max_left x lo)) hhi

/-- Clamping a nonnegative value to `[0, 1]` never increases it. -/
theorem clamp01_le_self (x : ℚ) (hx : 0 ≤ x) : clamp x 0 1 ≤ x := by
  unfold clamp
  rw [max_eq_left hx]
  exact min_le_left _ _

/-- Every evidence weight is bounded by the maximum weight of its list. -/
theorem le_maxWeight (es : List Evidence) (e : Evidence) (he : e ∈ es) :
    e.weight ≤ maxWeight es := by
  induction es with
  | nil => cases he
  | cons a tl ih =>
    cases tl with
    | nil =>
      rcases List.mem_singleton.mp he with rfl
      exact le_of_eq rfl
    | cons b tl2 =>
      rcases List.mem_cons.mp he with rfl | hmem
      · exact le_max_left _ _
      · exact (ih hmem).trans (le_max_right _ _)

/-- The maximum weight of a non-empty evidence list is attained by one of
its members. -/
theorem maxWeight_attained (es : List Evidence) (h : es ≠ []) :
    ∃ e ∈ es, maxWeight es = e.weight := by
  induction es with
  | nil => exact absurd rfl h
  | cons a tl ih =>
    cases tl with
    | nil => exact ⟨a, List.mem_singleton_self a, rfl⟩
    | cons b tl2 =>
      rcases ih (List.cons_ne_nil b tl2) with ⟨e, hmem, heq⟩
      rcases le_total (maxWeight (b :: tl2)) a.weight with hmax | hmax
      · exact ⟨a, List.mem_cons_self _ _, max_eq_left hmax⟩
      · exact ⟨e, List.mem_cons_of_mem _ hmem, by
          show max a.weight (maxWeight (b :: tl2)) = e.weight
          rw [max_eq_right hmax, heq]⟩

/-- Looking up a key in the graph of a function over a list containing the
key returns the function value. -/
theorem assocFind_map_self {α β : Type} [DecidableEq α] (l : List α) (f : α → β) (k : α)
    (hk : k ∈ l) : assocFind k (l.map fun a => (a, f a)) = some (f k) := by
  induction l with
  | nil => cases hk
  | cons a tl ih =>
    simp only [List.map_cons, assocFind]
    by_cases hak : a = k
    · subst hak
      simp
    · simp only [hak, if_false]
      refine ih ?_
      rcases List.mem_cons.mp hk with rfl | hmem
      · exact absurd rfl hak
      · exact hmem

/-- A successful association lookup comes from a list member with the
looked-up key. -/
theorem assocFind_mem {α β : Type} [DecidableEq α] (k : α) (l : List (α × β)) (b : β)
    (h : assocFind k l = some b) : ∃ p ∈ l, p.1 = k ∧ p.2 = b := by
  induction l with
  | nil => simp [assocFind] at h
  | cons p ps ih =>
    by_cases hp : p.1 = k
    · rw [assocFind, if_pos hp] at h
      exact ⟨p, List.mem_cons_self _ _, hp, (Option.some.injEq _ _).mp h⟩
    · rw [assocFind, if_neg hp] at h
      rcases ih h with ⟨q, hq, hqs⟩
      exact ⟨q, List.mem_cons_of_mem _ hq, hqs⟩

/-- All ingredient-table weights lie in `[0, 1]`. -/
theorem ingredientTable_weights :
    ∀ row ∈ ingredientTable, ∀ aw ∈ row.2, 0 ≤ aw.2 ∧ aw.2 ≤ 1 := by
  intro row hrow aw haw
  fin_cases hrow <;> fin_cases haw <;> norm_num

/-- All archetype-table weights lie in `[0, 1]`. -/
theorem archetypeTable_weights :
    ∀ row ∈ archetypeTable, ∀ aw ∈ row.2, 0 ≤ aw.2 ∧ aw.2 ≤ 1 := by
  intro row hrow aw haw
  fin_cases hrow <;> fin_cases haw <;> norm_num

/-- All cooking-method-table weights lie in `[0, 1]`. -/
theorem cookingMethodTable_weights :
    ∀ row ∈ cookingMethodTable, ∀ aw ∈ row.2, 0 ≤ aw.2 ∧ aw.2 ≤ 1 := by
  intro row hrow aw haw
  fin_cases hrow <;> fin_cases haw <;> norm_num

/-- All cuisine-prior-table values lie in `[0, 1]`. -/
theorem cuisinePriorTable_weights :
    ∀ row ∈ cuisinePriorTable, ∀ aw ∈ row.2, 0 ≤ aw.2 ∧ aw.2 ≤ 1 := by
  intro row hrow aw haw
  fin_cases hrow <;> fin_cases haw <;> norm_num

/-- All default-prior values lie in `[0, 1]`. -/
theorem defaultPriors_mem (a : AllergenKind) : 0 ≤ defaultPriors a ∧ defaultPriors a ≤ 1 := by
  cases a <;> norm_num [defaultPriors]

/-- Every cuisine prior lies in `[0, 1]`. -/
theorem cuisinePrior_mem (cuisine : Option (List Char)) (a : AllergenKind) :
    0 ≤ cuisinePrior cuisine a ∧ cuisinePrior cuisine a ≤ 1 := by
  cases cuisine with
  | none => simpa [cuisinePrior] using defaultPriors_mem a
  | some c =>
    simp only [cuisinePrior]
    cases hrow : assocFind (lowerAll c) cuisinePriorTable with
    | none => exact defaultPriors_mem a
    | some row =>
      cases haw : assocFind a row with
      | none =>
        simp only [haw, Option.getD_none]
        exact defaultPriors_mem a
      | some w =>
        simp only [haw, Option.getD_some]
        rcases assocFind_mem _ _ _ hrow with ⟨p, hp, _, hpv⟩
        rcases assocFind_mem _ _ _ haw with ⟨q, hq, _, hqv⟩
        have hb := cuisinePriorTable_weights p hp q (by rw [hpv]; exact hq)
        exact hqv ▸ hb

/-- Every table-hit evidence weight comes from a table entry. -/
theorem tableHits_weight (hit : List Char → Bool) (kind : EvidenceKind)
    (table : List (List Char × List (AllergenKind × ℚ))) (a : AllergenKind) (e : Evidence)
    (he : e ∈ tableHits hit kind table a) :
    ∃ row ∈ table, ∃ aw ∈ row.2, e.weight = aw.2 := by
  simp only [tableHits, List.mem_flatMap] at he
  rcases he with ⟨row, hrow, hin⟩
  by_cases hh : hit row.1
  · rw [if_pos hh] at hin
    simp only [entriesFor, List.mem_filterMap] at hin
    rcases hin with ⟨aw, hawmem, hcond⟩
    by_cases ha : aw.1 = a
    · rw [if_pos ha] at hcond
      rcases (Option.some.injEq _ _).mp hcond with rfl
      exact ⟨row, hrow, aw, hawmem, rfl⟩
    · rw [if_neg ha] at hcond
      cases hcond
  · rw [if_neg hh] at hin
    cases hin

/-- Every piece of direct evidence has a weight in `[0, 1]`. -/
theorem directEvidence_weight_mem (item : MenuItem) (a : AllergenKind) :
    ∀ e ∈ directEvidence item a, 0 ≤ e.weight ∧ e.weight ≤ 1 := by
  intro e he
  simp only [directEvidence, List.mem_append] at he
  rcases he with ((hi | hd) | ha) | hc
  · rcases tableHits_weight _ _ _ _ _ hi with ⟨row, hrow, aw, haw, hw⟩
    rw [hw]
    exact ingredientTable_weights row hrow aw haw
  · simp only [declEvidence] at hd
    by_cases hcond : (declarationMarkers.any fun m => containsSeg m (lowerAll (menuItemText item))) &&
        ((allergenTerms a).any fun n => containsSeg n (lowerAll (menuItemText item)))
    · rw [if_pos hcond] at hd
      rcases List.mem_singleton.mp hd with rfl
      norm_num
    · rw [if_neg hcond] at hd
      cases hd
  · rcases tableHits_weight _ _ _ _ _ ha with ⟨row, hrow, aw, haw, hw⟩
    rw [hw]
    exact archetypeTable_weights row hrow aw haw
  · rcases tableHits_weight _ _ _ _ _ hc with ⟨row, hrow, aw, haw, hw⟩
    rw [hw]
    exact cookingMethodTable_weights row hrow aw haw

/-- Every piece of extracted evidence has a weight in `[0, 1]`. -/
theorem extractEvidence_weight_mem (item : MenuItem) (cuisine : Option (List Char))
    (a : AllergenKind) :
    ∀ e ∈ extractEvidence item cuisine a, 0 ≤ e.weight ∧ e.weight ≤ 1 := by
  intro e he
  simp only [extractEvidence, List.mem_append] at he
  rcases he with hb | hcc
  · by_cases hde : (directEvidence item a).isEmpty
    · rw [if_pos hde] at hb
      rcases List.mem_singleton.mp hb with rfl
      exact cuisinePrior_mem cuisine a
    · rw [if_neg hde] at hb
      exact directEvidence_weight_mem item a e hb
  · rcases List.mem_singleton.mp hcc with rfl
    norm_num [crossContaminationEvidence]

/-- The combiner confidence of a list of `[0, 1]`-weighted evidence lies
in `[0, 1]`. -/
theorem combinedConfidence_mem (es : List Evidence)
    (h : ∀ e ∈ es, 0 ≤ e.weight ∧ e.weight ≤ 1) :
    0 ≤ combinedConfidence es ∧ combinedConfidence es ≤ 1 := by
  unfold combinedConfidence
  by_cases hz : weightSum es = 0
  · simp [hz]
  · rw [if_neg hz]
    have hnn : 0 ≤ weightSum es := by
      refine List.sum_nonneg ?_
      intro x hx
      rcases List.mem_map.mp hx with ⟨e, hme, rfl⟩
      exact (h e hme).1
    have hpos : 0 < weightSum es := lt_of_le_of_ne hnn (Ne.symm hz)
    have hsq : 0 ≤ weightSqSum es := by
      refine List.sum_nonneg ?_
      intro x hx
      rcases List.mem_map.mp hx with ⟨e, hme, rfl⟩
      exact mul_nonneg (h e hme).1 (h e hme).1
    have hle : weightSqSum es ≤ weightSum es := by
      refine List.sum_le_sum ?_
      intro e hme
      have h1 := (h e hme).1
      have h2 := (h e hme).2
      nlinarith
    exact ⟨div_nonneg hsq hnn, (div_le_one hpos).mpr hle⟩

/-- The mean per-allergen confidence of a dish lies in `[0, 1]`. -/
theorem meanAllergenConfidence_mem (item : MenuItem) (cuisine : Option (List Char)) :
    0 ≤ meanAllergenConfidence item cuisine ∧ meanAllergenConfidence item cuisine ≤ 1 := by
  unfold meanAllergenConfidence
  have hb : ∀ x ∈ allAllergens.map (fun a => combinedConfidence (extractEvidence item cuisine a)),
      0 ≤ x ∧ x ≤ 1 := by
    intro x hx
    rcases List.mem_map.mp hx with ⟨a, _, rfl⟩
    exact combinedConfidence_mem _ (extractEvidence_weight_mem item cuisine a)
  have hnn : 0 ≤ (allAllergens.map (fun a => combinedConfidence (extractEvidence item cuisine a))).sum :=
    List.sum_nonneg (fun x hx => (hb x hx).1)
  have hub : (allAllergens.map (fun a => combinedConfidence (extractEvidence item cuisine a))).sum ≤
      (allAllergens.map (fun _ => (1 : ℚ))).sum :=
    List.sum_le_sum (fun a _ =>
      (combinedConfidence_mem _ (extractEvidence_weight_mem item cuisine a)).2)
  have hconst : (allAllergens.map (fun _ => (1 : ℚ))).sum = 11 := by
    norm_num [allAllergens]
  have hlen : (allAllergens.length : ℚ) = 11 := by
    norm_num [allAllergens]
  rw [hlen]
  constructor
  · exact div_nonneg hnn (by norm_num)
  · rw [div_le_one (by norm_num)]
    calc (allAllergens.map (fun a => combinedConfidence (extractEvidence item cuisine a))).sum
        ≤ (allAllergens.map (fun _ => (1 : ℚ))).sum := hub
      _ = 11 := hconst

/-- C1: for every menu item, cuisine label and OCR confidence, the dish
profile produced by the Dish Analyzer has all 11 allergen kinds as keys of
its probability map, and every probability lies in `[0.01, 0.98]` (never
exactly 0 and never exactly 1). -/
theorem dish_profile_allergen_invariant (item : MenuItem) (cuisine : Option (List Char))
    (ocr : ℚ) :
    (analyzeDish item cuisine ocr).probabilities.map Prod.fst = allAllergens ∧
    ∀ pr ∈ (analyzeDish item cuisine ocr).probabilities,
      (0.01 : ℚ) ≤ pr.2 ∧ pr.2 ≤ (0.98 : ℚ) := by
  constructor
  · show (dishProbabilities item cuisine).map Prod.fst = allAllergens
    rw [dishProbabilities, List.map_map]
    exact List.map_id allAllergens
  · intro pr hpr
    have hpr2 : pr ∈ dishProbabilities item cuisine := hpr
    simp only [dishProbabilities, List.mem_map] at hpr2
    rcases hpr2 with ⟨a, _, rfl⟩
    simpa [combinedProbability] using
      clamp_mem (maxWeight (extractEvidence item cuisine a)) 0.01 0.98 (by norm_num)

/-- C4: on every non-empty evidence list, the Probability Combiner
returns the clamp to `[0.01, 0.98]` of the weight of a maximal evidence
item — maximum-evidence combination. -/
theorem combiner_is_clamped_maximum (es : List Evidence) (h : es ≠ []) :
    ∃ e ∈ es, (∀ e2 ∈ es, e2.weight ≤ e.weight) ∧
      combinedProbability es = clamp e.weight 0.01 0.98 := by
  rcases maxWeight_attained es h with ⟨e, hmem, heq⟩
  refine ⟨e, hmem, ?_, ?_⟩
  · intro e2 h2
    exact (le_maxWeight es e2 h2).trans_eq heq
  · unfold combinedProbability
    rw [heq]

/-- Witness for C4 at a concrete two-element evidence list. -/
theorem combiner_is_clamped_maximum_witness :
    ∃ e ∈ [evidenceA, evidenceB], (∀ e2 ∈ [evidenceA, evidenceB], e2.weight ≤ e.weight) ∧
      combinedProbability [evidenceA, evidenceB] = clamp e.weight 0.01 0.98 :=
  combiner_is_clamped_maximum [evidenceA, evidenceB] (List.cons_ne_nil _ _)

/-- C5: the dish confidence equals the OCR confidence times the mean
per-allergen confidence, clamped to `[0, 1]`; in particular it never
exceeds the OCR confidence. -/
theorem dish_confidence_ocr_bound (item : MenuItem) (cuisine : Option (List Char)) (c : ℚ)
    (h0 : 0 ≤ c) (h1 : c ≤ 1) :
    (analyzeDish item cuisine c).confidence =
      clamp (c * meanAllergenConfidence item cuisine) 0 1 ∧
    (analyzeDish item cuisine c).confidence ≤ c := by
  refine ⟨rfl, ?_⟩
  show clamp (c * meanAllergenConfidence item cuisine) 0 1 ≤ c
  rcases meanAllergenConfidence_mem item cuisine with ⟨hm0, hm1⟩
  have hprod0 : 0 ≤ c * meanAllergenConfidence item cuisine := mul_nonneg h0 hm0
  have hstep := clamp01_le_self _ hprod0
  have hle : c * meanAllergenConfidence item cuisine ≤ c := by nlinarith
  exact hstep.trans hle

/-- Witness for C5 at a concrete menu item and OCR confidence one half. -/
theorem dish_confidence_ocr_bound_witness :
    (analyzeDish sampleMenuItem none 0.5).confidence =
      clamp ((0.5 : ℚ) * meanAllergenConfidence sampleMenuItem none) 0 1 ∧
    (analyzeDish sampleMenuItem none 0.5).confidence ≤ (0.5 : ℚ) :=
  dish_confidence_ocr_bound sampleMenuItem none 0.5 (by norm_num) (by norm_num)

/-- C7: the Dish Analyzer is deterministic — two runs on equal menu item,
cuisine and OCR confidence produce equal profiles (it is a pure function
with no hidden randomness or external state). -/
theorem analyze_dish_deterministic (i1 i2 : MenuItem) (c1 c2 : Option (List Char))
    (o1 o2 : ℚ) (hi : i1 = i2) (hc : c1 = c2) (ho : o1 = o2) :
    analyzeDish i1 c1 o1 = analyzeDish i2 c2 o2 := by
  subst hi
  subst hc
  subst ho
  rfl

/-- Witness for C7 at a concrete input. -/
theorem analyze_dish_deterministic_witness :
    analyzeDish sampleMenuItem (some "burger".data) 0.91 =
      analyzeDish sampleMenuItem (some "burger".data) 0.91 :=
  analyze_dish_deterministic _ _ _ _ _ _ rfl rfl rfl

/-- C2: whenever the bundle records a robots.txt violation or more than 5
rate-limit hits, the Safety Gate returns status BLOCKED together with a
CRITICAL issue, whatever the rest of the bundle contains. -/
theorem safety_gate_blocks_noncompliant_scraping (b : AnalysisBundle)
    (h : 0 < b.scrapingMetadata.robotsViolations ∨ 5 < b.scrapingMetadata.rateLimitHits) :
    (validateBundle b).status = ValidationStatus.BLOCKED ∧
    ∃ i ∈ (validateBundle b).issues, i.severity = Severity.CRITICAL := by
  have hscr : scrapingComplianceIssues b.scrapingMetadata = [scrapingCriticalIssue] := by
    unfold scrapingComplianceIssues
    rw [if_pos h]
  constructor
  · simp [validateBundle, hscr, scrapingCriticalIssue]
  · refine ⟨scrapingCriticalIssue, ?_, rfl⟩
    show scrapingCriticalIssue ∈ (validateBundle b).issues
    simp only [validateBundle, hscr, List.singleton_append]
    exact List.mem_cons_self _ _

/-- Witness for C2 at a concrete bundle with one robots.txt violation. -/
theorem safety_gate_blocks_noncompliant_scraping_witness :
    (validateBundle sampleBundle).status = ValidationStatus.BLOCKED ∧
    ∃ i ∈ (validateBundle sampleBundle).issues, i.severity = Severity.CRITICAL :=
  safety_gate_blocks_noncompliant_scraping sampleBundle (Or.inl (by norm_num [sampleBundle]))

/-- C6: for a non-empty profile list the Venue Aggregator's prevalence for
an allergen equals the count of profiles with probability above 0.5
divided by the number of profiles, and on the empty list it returns the
empty summary carrying only the no-menu warning (it never fails). -/
theorem venue_prevalence_and_empty_case (profiles : List DishAllergenProfile)
    (a : AllergenKind) (ha : a ∈ allAllergens) (hne : profiles ≠ []) :
    assocFind a (aggregateVenueSummary profiles).prevalence =
      some ((profiles.countP (fun p => decide ((0.5 : ℚ) < profileProb p a)) : ℚ) /
        (profiles.length : ℚ)) ∧
    aggregateVenueSummary [] =
      { prevalence := [], stats := [], safestDishes := [], highestRiskDishes := [],
        generalWarnings := [noMenuWarning] } := by
  constructor
  · have hpre : (aggregateVenueSummary profiles).prevalence =
        allAllergens.map (fun a => (a, prevalenceFor profiles a)) := by
      rw [aggregateVenueSummary, if_neg (by simpa [List.isEmpty_iff] using hne)]
    rw [hpre, assocFind_map_self allAllergens (fun a => prevalenceFor profiles a) a ha]
    congr 1
    unfold prevalenceFor dishCountFor
    rw [List.countP_eq_length_filter]
  · rfl

/-- Witness for C6 at a one-profile list and the gluten allergen. -/
theorem venue_prevalence_and_empty_case_witness :
    assocFind AllergenKind.GLUTEN (aggregateVenueSummary [sampleProfile]).prevalence =
      some ((([sampleProfile].countP
          (fun p => decide ((0.5 : ℚ) < profileProb p AllergenKind.GLUTEN))) : ℚ) /
        (([sampleProfile] : List DishAllergenProfile).length : ℚ)) ∧
    aggregateVenueSummary [] =
      { prevalence := [], stats := [], safestDishes := [], highestRiskDishes := [],
        generalWarnings := [noMenuWarning] } :=
  venue_prevalence_and_empty_case [sampleProfile] AllergenKind.GLUTEN
    (by simp [allAllergens]) (List.cons_ne_nil _ _)

/-- A menu item whose text carries "Contains: wheat" produces the
EXPLICIT_DECLARATION gluten evidence in the Evidence Extractor. -/
theorem gluten_decl_present (item : MenuItem)
    (h : containsSeg ("Contains: wheat".data) (menuItemText item) = true) :
    declEvidence item AllergenKind.GLUTEN = [glutenDeclEvidence item] := by
  have hlow : containsSeg ("contains: wheat".data) (lowerAll (menuItemText item)) = true := by
    have hmap := containsSeg_map Char.toLower _ _ h
    have heq : ("Contains: wheat".data).map Char.toLower = "contains: wheat".data := by decide
    rwa [heq] at hmap
  have hmarker : containsSeg ("contains:".data) (lowerAll (menuItemText item)) = true :=
    containsSeg_sub _ _ _ [] (" wheat".data) (by decide) hlow
  have hterm : containsSeg ("wheat".data) (lowerAll (menuItemText item)) = true :=
    containsSeg_sub _ _ _ ("contains: ".data) [] (by decide) hlow
  have hcond : ((declarationMarkers.any fun m => containsSeg m (lowerAll (menuItemText item))) &&
      ((allergenTerms AllergenKind.GLUTEN).any fun n =>
        containsSeg n (lowerAll (menuItemText item)))) = true := by
    simp only [declarationMarkers, allergenTerms, List.any_cons, List.any_nil,
      Bool.and_eq_true, Bool.or_eq_true]
    exact ⟨Or.inl hmarker, Or.inr (Or.inl hterm)⟩
  simp only [declEvidence, glutenDeclEvidence]
  rw [if_pos hcond]

/-- C3: for every menu item whose text contains the explicit declaration
"Contains: wheat" and every cuisine label (including an unknown one), the
gluten probability in the Dish Analyzer's profile is at least 0.9. -/
theorem explicit_wheat_declaration_gluten (item : MenuItem) (cuisine : Option (List Char))
    (ocr : ℚ) (h : containsSeg ("Contains: wheat".data) (menuItemText item) = true) :
    (0.9 : ℚ) ≤
      (assocFind AllergenKind.GLUTEN (analyzeDish item cuisine ocr).probabilities).getD 0 := by
  have hdecl := gluten_decl_present item h
  have hdir : glutenDeclEvidence item ∈ directEvidence item AllergenKind.GLUTEN := by
    unfold directEvidence
    rw [hdecl]
    simp
  have hmem : glutenDeclEvidence item ∈ extractEvidence item cuisine AllergenKind.GLUTEN := by
    unfold extractEvidence
    have hne : (directEvidence item AllergenKind.GLUTEN).isEmpty = false := by
      cases hde : directEvidence item AllergenKind.GLUTEN with
      | nil => rw [hde] at hdir; cases hdir
      | cons x xs => rfl
    rw [if_neg (by simp [hne])]
    exact List.mem_append_left _ hdir
  have hw : (0.97 : ℚ) ≤ maxWeight (extractEvidence item cuisine AllergenKind.GLUTEN) := by
    have hlm := le_maxWeight _ _ hmem
    simpa [glutenDeclEvidence] using hlm
  have hprob : (0.9 : ℚ) ≤ combinedProbability (extractEvidence item cuisine AllergenKind.GLUTEN) :=
    le_clamp _ _ _ _ (le_trans (by norm_num) hw) (by norm_num)
  have hfind : assocFind AllergenKind.GLUTEN (analyzeDish item cuisine ocr).probabilities =
      some (combinedProbability (extractEvidence item cuisine AllergenKind.GLUTEN)) := by
    show assocFind AllergenKind.GLUTEN (dishProbabilities item cuisine) = _
    exact assocFind_map_self allAllergens _ AllergenKind.GLUTEN (by simp [allAllergens])
  rw [hfind]
  simpa using hprob

/-- Witness for C3 at the concrete cheeseburger item. -/
theorem explicit_wheat_declaration_gluten_witness :
    (0.9 : ℚ) ≤
      (assocFind AllergenKind.GLUTEN
        (analyzeDish sampleMenuItem none 0.91).probabilities).getD 0 :=
  explicit_wheat_declaration_gluten sampleMenuItem none 0.91 (by decide)

/-- C8: whenever the lat or lng query parameter fails to parse as a number
(including when it is absent, since an absent parameter parses from the
empty string), or the radius parses to a value below 100 or above 50000,
the restaurants route answers 400 with a JSON error body and never
contacts the Flask backend. -/
theorem restaurants_route_validates_before_flask (flask : FlaskOutcome)
    (latS lngS radiusS researchLimitS : Option (List Char))
    (h : jsParseFloat (latS.getD []) = none ∨ jsParseFloat (lngS.getD []) = none ∨
      ∃ r, jsParseInt (radiusS.getD "5000".data) = some r ∧ (r < 100 ∨ 50000 < r)) :
    (restaurantsRouteGET flask latS lngS radiusS researchLimitS).status = 400 ∧
    (∃ m, (restaurantsRouteGET flask latS lngS radiusS researchLimitS).body =
      ResearchBody.errJson m) ∧
    (restaurantsRouteGET flask latS lngS radiusS researchLimitS).flaskCalled = false := by
  cases hlat : jsParseFloat (latS.getD []) with
  | none => simp [restaurantsRouteGET, hlat]
  | some lat =>
    cases hlng : jsParseFloat (lngS.getD []) with
    | none => simp [restaurantsRouteGET, hlat, hlng]
    | some lng =>
      rcases h with h1 | h2 | ⟨r, hr, hrange⟩
      · rw [hlat] at h1
        cases h1
      · rw [hlng] at h2
        cases h2
      · have hcond : (optIntLt (jsParseInt (radiusS.getD "5000".data)) 100 ||
            optIntGt (jsParseInt (radiusS.getD "5000".data)) 50000) = true := by
          rw [hr]
          rcases hrange with hlt | hgt
          · simp [optIntLt, hlt]
          · simp [optIntLt, optIntGt, hgt]
        simp [restaurantsRouteGET, hlat, hlng, hcond]

/-- Witness for C8 at a request with all parameters absent. -/
theorem restaurants_route_validates_before_flask_witness :
    (restaurantsRouteGET (FlaskOutcome.err 500 []) none none none none).status = 400 ∧
    (∃ m, (restaurantsRouteGET (FlaskOutcome.err 500 []) none none none none).body =
      ResearchBody.errJson m) ∧
    (restaurantsRouteGET (FlaskOutcome.err 500 []) none none none none).flaskCalled = false :=
  restaurants_route_validates_before_flask (FlaskOutcome.err 500 []) none none none none
    (Or.inl rfl)

/-- Properties of the filter-sort-slice pipeline of the sample route: with
a nonnegative limit, the output is radius-bounded, sorted by distance, and
no longer than the limit. -/
theorem sliceSort_props (l : List Restaurant) (radius limit : ℤ) (hl0 : 0 ≤ limit) :
    (∀ r ∈ jsSliceTo limit (List.insertionSort byDist
        (l.filter (fun r => optIntLe r.distanceMeters (some radius)))),
      r.distanceMeters ≤ radius) ∧
    List.Pairwise byDist (jsSliceTo limit (List.insertionSort byDist
      (l.filter (fun r => optIntLe r.distanceMeters (some radius))))) ∧
    ((jsSliceTo limit (List.insertionSort byDist
      (l.filter (fun r => optIntLe r.distanceMeters (some radius))))).length : ℤ) ≤ limit := by
  set F := l.filter (fun r => optIntLe r.distanceMeters (some radius)) with hF
  set S := List.insertionSort byDist F with hS
  have hperm : S.Perm F := List.perm_insertionSort byDist F
  have hsorted : List.Pairwise byDist S := List.sorted_insertionSort byDist F
  have hslice : jsSliceTo limit S = S.take limit.toNat := by
    unfold jsSliceTo
    rw [if_neg (not_lt.mpr hl0)]
  rw [hslice]
  refine ⟨?_, ?_, ?_⟩
  · intro r hr
    have hrS : r ∈ S := List.take_subset _ _ hr
    have hrF : r ∈ F := hperm.mem_iff.mp hrS
    have hfl := (List.mem_filter.mp hrF).2
    simpa [optIntLe] using hfl
  · exact hsorted.sublist (List.take_sublist _ _)
  · have hlen : (S.take limit.toNat).length ≤ limit.toNat := List.length_take_le _ _
    have hcast : ((S.take limit.toNat).length : ℤ) ≤ (limit.toNat : ℤ) := Int.ofNat_le.mpr hlen
    rwa [Int.toNat_of_nonneg hl0] at hcast

/-- C9 (amended): for every valid query whose parsed limit is nonnegative,
the sample-restaurants route returns 200 with a list whose entries all
have recomputed distance at most the radius, sorted by distance in
non-decreasing order, of length at most the limit.  (The Haversine is
abstracted as the distance function `dist`; a negative limit falls under
JavaScript slice-from-the-end semantics instead, see the
counterexample.) -/
theorem sample_route_valid_query_shape (dist : ℚ → ℚ → ℚ → ℚ → ℚ)
    (latS lngS radiusS limitS : Option (List Char)) (lat lng : ℚ) (radius limit : ℤ)
    (hlat : jsParseFloat (latS.getD []) = some lat)
    (hlng : jsParseFloat (lngS.getD []) = some lng)
    (hrad : jsParseInt (radiusS.getD "5000".data) = some radius)
    (hlim : jsParseInt (limitS.getD "20".data) = some limit)
    (hr1 : 100 ≤ radius) (hr2 : radius ≤ 50000) (hl0 : 0 ≤ limit) :
    (sampleRestaurantsGET dist latS lngS radiusS limitS).status = 200 ∧
    (∀ r ∈ sampleResponseRestaurants (sampleRestaurantsGET dist latS lngS radiusS limitS),
      r.distanceMeters ≤ radius) ∧
    List.Pairwise byDist
      (sampleResponseRestaurants (sampleRestaurantsGET dist latS lngS radiusS limitS)) ∧
    ((sampleResponseRestaurants (sampleRestaurantsGET dist latS lngS radiusS limitS)).length : ℤ)
      ≤ limit := by
  have hnl : ¬ radius < 100 := not_lt.mpr hr1
  have hng : ¬ 50000 < radius := not_lt.mpr hr2
  have hprops := sliceSort_props (SAMPLE_RESTAURANTS.map (updateDistance dist lat lng))
    radius limit hl0
  have hout : sampleRestaurantsGET dist latS lngS radiusS limitS =
      { status := 200
        body := SampleBody.okJson
          (jsSliceTo limit (List.insertionSort byDist
            ((SAMPLE_RESTAURANTS.map (updateDistance dist lat lng)).filter
              (fun r => optIntLe r.distanceMeters (some radius)))))
          (jsSliceTo limit (List.insertionSort byDist
            ((SAMPLE_RESTAURANTS.map (updateDistance dist lat lng)).filter
              (fun r => optIntLe r.distanceMeters (some radius))))).length } := by
    simp [sampleRestaurantsGET, hlat, hlng, hrad, hlim, optIntLt, optIntGt, hnl, hng, jsSliceOpt]
  rw [hout]
  exact ⟨rfl, hprops.1, hprops.2.1, hprops.2.2⟩

/-- Witness for the amended C9 at a concrete valid query with default
radius and limit. -/
theorem sample_route_valid_query_shape_witness :
    (sampleRestaurantsGET zeroDist (some "37".data) (some "-122".data) none none).status = 200 ∧
    (∀ r ∈ sampleResponseRestaurants
        (sampleRestaurantsGET zeroDist (some "37".data) (some "-122".data) none none),
      r.distanceMeters ≤ 5000) ∧
    List.Pairwise byDist (sampleResponseRestaurants
      (sampleRestaurantsGET zeroDist (some "37".data) (some "-122".data) none none)) ∧
    ((sampleResponseRestaurants
      (sampleRestaurantsGET zeroDist (some "37".data) (some "-122".data) none none)).length : ℤ)
      ≤ 20 := by
  have hlat : jsParseFloat ((some "37".data).getD []) = some 37 := by
    show some ((1 : ℚ) * (((37 : ℕ) : ℚ) + ((0 : ℕ) : ℚ) / 10 ^ (0 : ℕ))) = some 37
    norm_num
  have hlng : jsParseFloat ((some "-122".data).getD []) = some (-122) := by
    show some ((-1 : ℚ) * (((122 : ℕ) : ℚ) + ((0 : ℕ) : ℚ) / 10 ^ (0 : ℕ))) = some (-122)
    norm_num
  exact sample_route_valid_query_shape zeroDist (some "37".data) (some "-122".data) none none
    37 (-122) 5000 20 hlat hlng rfl rfl (by decide) (by decide) (by decide)

/-- C9 counterexample: at the valid query lat "37", lng "-122", default
radius, and limit "-1" (which parses to the number -1), the returned list
has 4 entries under the constant-zero distance function, so its length is
not at most the limit — the claim as stated fails for negative limits. -/
theorem sample_route_negative_limit_counterexample :
    jsParseInt ("-1".data) = some (-1) ∧
    ¬ (((sampleResponseRestaurants (sampleRestaurantsGET zeroDist (some "37".data)
        (some "-122".data) none (some "-1".data))).length : ℤ) ≤ -1) := by
  refine ⟨rfl, ?_⟩
  have hc1 : ((jsParseFloat ((some "37".data).getD [])).isNone ||
      (jsParseFloat ((some "-122".data).getD [])).isNone) = false := rfl
  have hrad : jsParseInt ((none : Option (List Char)).getD "5000".data) = some 5000 := rfl
  have hlim : jsParseInt ((some "-1".data).getD "20".data) = some (-1) := rfl
  have hc2 : (optIntLt (some (5000 : ℤ)) 100 || optIntGt (some (5000 : ℤ)) 50000) = false := rfl
  have hround : jsRound (0 : ℚ) = 0 := by
    rw [jsRound, show ((0 : ℚ) + 1 / 2) = 1 / 2 by norm_num, Int.floor_eq_iff]
    norm_num
  have hmapped : ∀ (la ln : ℚ), ∀ r ∈ SAMPLE_RESTAURANTS.map (updateDistance zeroDist la ln),
      r.distanceMeters = 0 := by
    intro la ln r hr
    rcases List.mem_map.mp hr with ⟨r0, _, rfl⟩
    show jsRound (zeroDist la ln r0.location.lat r0.location.lng) = 0
    exact hround
  have hfilter : ∀ (la ln : ℚ),
      (SAMPLE_RESTAURANTS.map (updateDistance zeroDist la ln)).filter
        (fun r => optIntLe r.distanceMeters (some 5000)) =
      SAMPLE_RESTAURANTS.map (updateDistance zeroDist la ln) := by
    intro la ln
    apply List.filter_eq_self.mpr
    intro r hr
    rw [hmapped la ln r hr]
    rfl
  have hsortlen : ∀ (la ln : ℚ),
      (List.insertionSort byDist (SAMPLE_RESTAURANTS.map (updateDistance zeroDist la ln))).length = 5 := by
    intro la ln
    rw [(List.perm_insertionSort byDist _).length_eq, List.length_map]
    rfl
  simp only [sampleRestaurantsGET, hc1, hc2, hrad, hlim, Bool.false_eq_true, if_false,
    jsSliceOpt, sampleResponseRestaurants, hfilter]
  rw [jsSliceTo, if_pos (by decide : (-1 : ℤ) < 0), List.length_take, hsortlen]
  decide

/-- C10: `formatAllergenProfile` renders exactly the profile entries with
risk above 0.3, in order of decreasing risk, truncated to at most 3; an
absent profile or one with no entry above 0.3 renders nothing (`none`).
The rendered list consists of passing entries, is descending, has length
`min 3 (number of passing entries)`, and every passing entry left out has
risk at most that of every rendered entry. -/
theorem format_allergen_profile_spec (profile : Option (List (List Char × ℚ))) :
    (profile = none → formatAllergenProfile profile = none) ∧
    (∀ p, profile = some p →
      p.filter (fun e => decide ((0.3 : ℚ) < e.2)) = [] →
      formatAllergenProfile profile = none) ∧
    (∀ p l, profile = some p → formatAllergenProfile profile = some l →
      l.length = min 3 (p.countP (fun e => decide ((0.3 : ℚ) < e.2))) ∧
      List.Pairwise riskDesc l ∧
      (∀ e ∈ l, e ∈ p ∧ (0.3 : ℚ) < e.2) ∧
      (∀ e ∈ p, (0.3 : ℚ) < e.2 → e ∉ l → ∀ e2 ∈ l, e.2 ≤ e2.2)) := by
  refine ⟨?_, ?_, ?_⟩
  · rintro rfl
    rfl
  · rintro p rfl hfil
    simp [formatAllergenProfile, hfil]
  · rintro p l rfl hfmt
    simp only [formatAllergenProfile] at hfmt
    set F := p.filter (fun e => decide ((0.3 : ℚ) < e.2)) with hF
    set S := List.insertionSort riskDesc F with hS
    have hperm : S.Perm F := List.perm_insertionSort riskDesc F
    have hsorted : List.Pairwise riskDesc S := List.sorted_insertionSort riskDesc F
    have hl : l = S.take 3 := by
      by_cases hz : (S.take 3).length = 0
      · rw [if_pos hz] at hfmt
        cases hfmt
      · rw [if_neg hz] at hfmt
        exact ((Option.some.injEq _ _).mp hfmt).symm
    refine ⟨?_, ?_, ?_, ?_⟩
    · rw [hl, List.length_take, hperm.length_eq, hF, List.countP_eq_length_filter]
    · rw [hl]
      exact hsorted.sublist (List.take_sublist _ _)
    · intro e he
      rw [hl] at he
      have heS : e ∈ S := List.take_subset _ _ he
      have heF : e ∈ F := hperm.mem_iff.mp heS
      have hm := List.mem_filter.mp heF
      exact ⟨hm.1, of_decide_eq_true hm.2⟩
    · intro e hep hpass hnot e2 he2
      have heF : e ∈ F := List.mem_filter.mpr ⟨hep, decide_eq_true hpass⟩
      have heS : e ∈ S := hperm.mem_iff.mpr heF
      have hsplit : e ∈ S.take 3 ++ S.drop 3 := by
        rw [List.take_append_drop]
        exact heS
      have hedrop : e ∈ S.drop 3 := by
        rcases List.mem_append.mp hsplit with h1 | h2
        · exact absurd (hl ▸ h1) hnot
        · exact h2
      have hcross := (List.pairwise_append.mp
        ((List.take_append_drop 3 S).symm ▸ hsorted)).2.2
      have := hcross e2 (hl ▸ he2) e hedrop
      exact this

/-- Witness for C10 at a concrete profile with no entry above 0.3 risk. -/
theorem format_allergen_profile_spec_witness :
    formatAllergenProfile (some [("gluten".data, 0.2)]) = none := by
  have hd : (decide ((0.3 : ℚ) < (0.2 : ℚ))) = false := decide_eq_false (by norm_num)
  exact (format_allergen_profile_spec (some [("gluten".data, 0.2)])).2.1
    [("gluten".data, 0.2)] rfl (by simp [List.filter, hd])

/-- Witness for C1 at a concrete menu item and cuisine. -/
theorem dish_profile_allergen_invariant_witness :
    (analyzeDish sampleMenuItem (some "burger".data) 0.91).probabilities.map Prod.fst
        = allAllergens ∧
    ∀ pr ∈ (analyzeDish sampleMenuItem (some "burger".data) 0.91).probabilities,
      (0.01 : ℚ) ≤ pr.2 ∧ pr.2 ≤ (0.98 : ℚ) :=
  dish_profile_allergen_invariant sampleMenuItem (some "burger".data) 0.91
